import Mathlib

set_option linter.unusedVariables false

/-!
Verification development for the ESPN MCP server's adaptive caching and
response-normalization layer.

The JavaScript source is shallowly embedded as follows:
* the module-level `cache` (a JS `Map` from string keys to
  `{ data, timestamp }` records) becomes an association list threaded
  explicitly through every operation;
* wall-clock time (`Date.now()`) becomes an explicit `now : Int` argument
  (milliseconds);
* the upstream HTTP fetch becomes an `Except String payload` argument: the
  `.error` case models a thrown fetch error (network failure or non-2xx
  response), the `.ok` case the parsed JSON body.  Each query function also
  returns a `Bool` that records whether the upstream client was consulted
  on that call (`false` exactly when the function returned before reaching
  the fetch);
* JS field accesses guarded by optional chaining become `Option` fields;
  accesses that can throw `TypeError` (e.g. `homeTeam.team` when no
  competitor has `homeAway === 'home'`) become `Option`-valued helpers whose
  `none` result is routed to the surrounding `try/catch`'s error branch.
-/

/-! ## Cache store (espn-api module: `cache`, `getCached`, `setCache`, `clearCache`) -/

/-- One value of the module-level `cache` map: `{ data, timestamp }` as
written by `setCache`. -/
structure CacheEntry (α : Type) where
  data : α
  timestamp : Int
deriving DecidableEq, Repr

/-- The module-level `cache : Map` of espn-api, as an association list in
insertion order.  Only `get`/`set`/`delete`/`clear` are ever used by the
source, so iteration order is unobservable. -/
abbrev CacheMap (α : Type) : Type := List (String × CacheEntry α)

/-- JS `cache.get(key)`: the entry stored under `key`, if any. -/
def mapGet {α : Type} (c : CacheMap α) (key : String) : Option (CacheEntry α) :=
  (c.find? (fun p => p.1 == key)).map (fun p => p.2)

/-- JS `cache.delete(key)`. -/
def mapDelete {α : Type} (c : CacheMap α) (key : String) : CacheMap α :=
  c.filter (fun p => p.1 != key)

/-- JS `cache.set(key, e)`: updates the existing binding in place, or
appends a new one (JS `Map` keeps insertion order). -/
def mapSet {α : Type} (c : CacheMap α) (key : String) (e : CacheEntry α) : CacheMap α :=
  if c.any (fun p => p.1 == key) then
    c.map (fun p => if p.1 == key then (key, e) else p)
  else
    c ++ [(key, e)]

/-- Source `getCached(key, maxAge)`: returns the cached data if the entry's
age does not exceed `maxAge`; an entry older than `maxAge` is deleted from
the map and `null` is returned.  The (possibly mutated) map is returned
alongside the result. -/
def getCached {α : Type} (c : CacheMap α) (key : String) (maxAge : Int) (now : Int) :
    Option α × CacheMap α :=
  match mapGet c key with
  | none => (none, c)
  | some entry =>
    let age := now - entry.timestamp
    if age > maxAge then (none, mapDelete c key)
    else (some entry.data, c)

/-- Source `setCache(key, data)`: stores `{ data, timestamp: Date.now() }`. -/
def setCache {α : Type} (c : CacheMap α) (key : String) (data : α) (now : Int) : CacheMap α :=
  mapSet c key { data := data, timestamp := now }

/-- Source `clearCache()`: `cache.clear()`. -/
def clearCache {α : Type} (_c : CacheMap α) : CacheMap α := []

/-! Cache durations (`CACHE_DURATION`, milliseconds).  `LIVE_GAME` and
`COMPLETED_GAME` are declared by the source but never referenced by any of
its query functions. -/

def CACHE_DURATION_LIVE_GAME : Int := 60 * 1000

def CACHE_DURATION_COMPLETED_GAME : Int := 24 * 60 * 60 * 1000

def CACHE_DURATION_SCHEDULE : Int := 24 * 60 * 60 * 1000

def CACHE_DURATION_RANKINGS : Int := 24 * 60 * 60 * 1000

def CACHE_DURATION_SCOREBOARD : Int := 5 * 60 * 1000

/-! ## Basic cache-store lemmas -/

theorem find?_update_of_any {α : Type} (l : List (String × CacheEntry α)) (key : String)
    (e : CacheEntry α) (h : l.any (fun p => p.1 == key) = true) :
    (l.map (fun p => if p.1 == key then (key, e) else p)).find? (fun p => p.1 == key)
      = some (key, e) := by
  induction l with
  | nil => simp at h
  | cons hd tl ih =>
    by_cases hhd : (hd.1 == key) = true
    · have hupd : (if (hd.1 == key) = true then (key, e) else hd) = (key, e) := if_pos hhd
      rw [List.map_cons, hupd, List.find?_cons]
      simp
    · simp only [List.any_cons, Bool.or_eq_true] at h
      rcases h with h | h
      · exact absurd h hhd
      · have hupd : (if (hd.1 == key) = true then (key, e) else hd) = hd := if_neg hhd
        rw [List.map_cons, hupd, List.find?_cons]
        rw [Bool.not_eq_true] at hhd
        rw [hhd]
        exact ih h

theorem find?_append_of_none {α : Type} (l1 l2 : List (String × CacheEntry α))
    (p : String × CacheEntry α → Bool) (h : l1.find? p = none) :
    (l1 ++ l2).find? p = l2.find? p := by
  induction l1 with
  | nil => simp
  | cons hd tl ih =>
    rw [List.cons_append, List.find?_cons]
    rw [List.find?_cons] at h
    cases hp : p hd with
    | true =>
      rw [hp] at h
      simp at h
    | false =>
      rw [hp] at h
      exact ih h

theorem mapGet_mapSet_self {α : Type} (c : CacheMap α) (key : String) (e : CacheEntry α) :
    mapGet (mapSet c key e) key = some e := by
  unfold mapGet mapSet
  by_cases h : c.any (fun p => p.1 == key) = true
  · rw [if_pos h, find?_update_of_any c key e h]
    rfl
  · have hnone : List.find? (fun p => p.1 == key) c = none := by
      rw [List.find?_eq_none]
      intro x hx
      simp only [Bool.not_eq_true]
      rcases Bool.eq_false_or_eq_true (x.1 == key) with hb | hb
      · exact absurd (List.any_eq_true.mpr ⟨x, hx, hb⟩) h
      · exact hb
    rw [if_neg h, find?_append_of_none _ _ _ hnone, List.find?_cons]
    simp

theorem getCached_none_mapGet {α : Type} (c : CacheMap α) (key : String) (maxAge now : Int)
    (h : (getCached c key maxAge now).1 = none) :
    mapGet (getCached c key maxAge now).2 key = none := by
  unfold getCached at *
  cases hg : mapGet c key with
  | none => simp [hg]
  | some entry =>
    simp only [hg] at h ⊢
    by_cases hage : now - entry.timestamp > maxAge
    · simp only [hage, if_pos]
      unfold mapGet mapDelete
      rw [List.find?_filter]
      simp
    · simp [hage] at h

theorem getCached_of_mapGet_none {α : Type} (c : CacheMap α) (key : String) (maxAge now : Int)
    (h : mapGet c key = none) :
    getCached c key maxAge now = (none, c) := by
  unfold getCached
  simp [h]

/-! ## Team lookup (espn-api module: `TEAM_MAP`, `getTeamId`) -/

/-- The `TEAM_MAP` object literal of espn-api, in source order.  The source
declares the key 'osu' twice ('197' under Big 12, then '194' under Big Ten);
JS object-literal semantics keep the last occurrence, which `objectGet`
reproduces. -/
def TEAM_MAP : List (String × String) := [
  ("oklahoma", "201"), ("ou", "201"), ("sooners", "201"),
  ("texas", "251"), ("ut", "251"), ("longhorns", "251"),
  ("oklahoma state", "197"), ("osu", "197"), ("cowboys", "197"),
  ("baylor", "239"), ("tcu", "2628"), ("texas tech", "2641"),
  ("kansas", "2305"), ("kansas state", "2306"), ("iowa state", "66"),
  ("west virginia", "277"),
  ("alabama", "333"), ("bama", "333"), ("georgia", "61"), ("uga", "61"),
  ("lsu", "99"), ("florida", "57"), ("tennessee", "2633"), ("auburn", "2"),
  ("texas a&m", "245"), ("tamu", "245"), ("arkansas", "8"),
  ("missouri", "142"), ("kentucky", "96"), ("mississippi state", "344"),
  ("ole miss", "145"), ("south carolina", "2579"), ("vanderbilt", "238"),
  ("ohio state", "194"), ("osu", "194"), ("michigan", "130"),
  ("penn state", "213"), ("wisconsin", "275"), ("iowa", "2294"),
  ("nebraska", "158"), ("minnesota", "135"), ("northwestern", "77"),
  ("illinois", "356"), ("purdue", "2509"), ("indiana", "84"),
  ("michigan state", "127"), ("maryland", "120"), ("rutgers", "164"),
  ("clemson", "228"), ("miami", "2390"), ("florida state", "52"),
  ("fsu", "52"), ("north carolina", "153"), ("unc", "153"),
  ("nc state", "152"), ("virginia tech", "259"), ("virginia", "258"),
  ("pittsburgh", "221"), ("louisville", "97"), ("duke", "150"),
  ("wake forest", "154"), ("boston college", "103"), ("syracuse", "183"),
  ("georgia tech", "59"),
  ("usc", "30"), ("ucla", "26"), ("oregon", "2483"), ("washington", "264"),
  ("stanford", "24"), ("notre dame", "87"), ("byu", "252"), ("utah", "254"),
  ("colorado", "38"), ("arizona", "12"), ("arizona state", "9"),
  ("washington state", "265"), ("oregon state", "204"),
  ("california", "25"), ("cal", "25")]

/-- Lookup in a JS object literal built from `entries` in source order:
a later duplicate key overwrites an earlier one. -/
def objectGet (entries : List (String × String)) (key : String) : Option String :=
  entries.foldl (fun acc p => if p.1 == key then some p.2 else acc) none

/-- JS `String.prototype.toLowerCase`, modelled character-wise (the names in
play are ASCII). -/
def jsToLowerCase (s : String) : String :=
  String.mk (s.data.map Char.toLower)

/-- JS `String.prototype.trim`: strip leading and trailing whitespace. -/
def jsTrim (s : String) : String :=
  String.mk (((s.data.dropWhile Char.isWhitespace).reverse.dropWhile
    Char.isWhitespace).reverse)

/-- Source `getTeamId(teamName)` of espn-api:
`teamName.toLowerCase().trim()`, then a `TEAM_MAP` lookup (`|| null`
becomes `Option`). -/
def getTeamId (teamName : String) : Option String :=
  objectGet TEAM_MAP (jsTrim (jsToLowerCase teamName))

/-! ## ESPN schedule / scoreboard payload shapes

These mirror the fields the source reads from the parsed ESPN JSON.
Fields the source reads through optional chaining, or that may be absent
from the JSON, are `Option`s:
* `Competition.date` is `Option Int` (milliseconds); `none` models a
  missing or unparseable date (`new Date(undefined)` is Invalid, and every
  comparison against it is false);
* `Competitor.record` collapses `records?.[0]?.summary`;
* `Competition.venue` collapses `venue?.fullName` and
  `Competition.broadcast` collapses `broadcasts?.[0]?.names?.[0]`.
-/

structure StatusType where
  state : String
  completed : Bool
  description : String
deriving DecidableEq, Repr

structure GameStatus where
  type : StatusType
  period : Int
  displayClock : String
deriving DecidableEq, Repr

structure TeamRef where
  id : String
  displayName : String
  abbreviation : String
deriving DecidableEq, Repr

structure Competitor where
  homeAway : String
  team : TeamRef
  score : Option String
  record : Option String
deriving DecidableEq, Repr

structure Competition where
  date : Option Int
  status : GameStatus
  competitors : List Competitor
  venue : Option String
  broadcast : Option String
deriving DecidableEq, Repr

structure Event where
  name : String
  competitions : List Competition
deriving DecidableEq, Repr

structure SchedulePayload where
  events : List Event
deriving DecidableEq, Repr

/-! ## Canonical results built by the espn-api query functions -/

/-- Team block of the object returned by `getCurrentGame` (name,
abbreviation, score, record). -/
structure GameTeam where
  name : String
  abbreviation : String
  score : Option String
  record : Option String
deriving DecidableEq, Repr

/-- The `game` object returned by `getCurrentGame`. -/
structure Game where
  name : String
  date : Option Int
  status : String
  period : Int
  clock : String
  isLive : Bool
  isCompleted : Bool
  homeTeam : GameTeam
  awayTeam : GameTeam
  venue : Option String
  broadcast : Option String
deriving DecidableEq, Repr

/-- Outcome of `getCurrentGame`: the source returns either
`{ error: true, message }` or `{ game }`; there is no further structure in
the error case beyond the message string. -/
inductive GameResult where
  | error (message : String)
  | ok (game : Game)
deriving DecidableEq, Repr

def GameResult.isError : GameResult → Bool
  | .error _ => true
  | .ok _ => false

/-- Replace the message of an error result, keeping everything else.  Used
to state that two error outcomes carry no distinguishing structure besides
the message text. -/
def GameResult.withMessage : GameResult → String → GameResult
  | .error _, m => .error m
  | .ok g, _ => .ok g

/-- One game of the list returned by `getTeamSchedule`.  The human-readable
`time` field (a `toLocaleString` rendering of `date`) is elided: it is a
locale-dependent re-formatting of the `date` value carried here. -/
structure SchedGame where
  date : Option Int
  opponent : String
  location : String
  venue : Option String
  broadcast : Option String
deriving DecidableEq, Repr

structure ScheduleResult where
  team : String
  games : List SchedGame
deriving DecidableEq, Repr

structure SBTeam where
  name : String
  abbreviation : String
  score : Option String
  record : Option String
deriving DecidableEq, Repr

structure SBGame where
  name : String
  status : String
  isLive : Bool
  period : Int
  clock : String
  homeTeam : SBTeam
  awayTeam : SBTeam
  broadcast : Option String
deriving DecidableEq, Repr

structure ScoreboardResult where
  date : String
  games : List SBGame
deriving DecidableEq, Repr

/-! Rankings payload and result shapes (fields read by `getRankings`). -/

structure RankTeamRef where
  displayName : String
  abbreviation : String
deriving DecidableEq, Repr

structure RankEntry where
  current : Int
  previous : Option Int
  team : RankTeamRef
  recordSummary : Option String
  points : Option Int
deriving DecidableEq, Repr

structure Ranking where
  name : String
  week : Option Int
  season : Option Int
  ranks : List RankEntry
deriving DecidableEq, Repr

structure RankingsPayload where
  rankings : List Ranking
deriving DecidableEq, Repr

structure RankTeam where
  rank : Int
  previousRank : Option Int
  team : String
  abbreviation : String
  record : Option String
  points : Option Int
deriving DecidableEq, Repr

structure RankingsResult where
  poll : String
  week : Option Int
  season : Option Int
  teams : List RankTeam
deriving DecidableEq, Repr

/-- The values that the single espn-api `cache` map holds: schedule,
scoreboard and rankings results share the one map, under keys with the
disjoint prefixes `schedule_`, `scoreboard_` and `rankings_`. -/
inductive CacheValue where
  | schedule (r : ScheduleResult)
  | scoreboard (r : ScoreboardResult)
  | rankings (r : RankingsResult)
deriving DecidableEq, Repr

abbrev ESPNCache := CacheMap CacheValue

/-- Outcome of the cached query functions: `{ error: true, message }` or the
(possibly cached) result object. -/
inductive ESPNResponse where
  | error (message : String)
  | value (v : CacheValue)
deriving DecidableEq, Repr

def ESPNResponse.isError : ESPNResponse → Bool
  | .error _ => true
  | .value _ => false

/-! ## getCurrentGame (espn-api) -/

/-- The in-progress search of `getCurrentGame`: first event whose
`competitions?.[0]?.status?.type?.state === 'in'`. -/
def findLiveEvent (events : List Event) : Option Event :=
  events.find? (fun ev =>
    match ev.competitions.head? with
    | some comp => comp.status.type.state == "in"
    | none => false)

/-- The lookback filter of `getCurrentGame`: `gameDate <= now`,
`gameDate >= now - 7 days`, and `competition?.status?.type?.completed`; a
missing/invalid date fails every comparison. -/
def isRecentCompleted (now : Int) (ev : Event) : Bool :=
  match ev.competitions.head? with
  | some comp =>
    match comp.date with
    | some d =>
      decide (d ≤ now) && decide (d ≥ now - 7 * 24 * 60 * 60 * 1000)
        && comp.status.type.completed
    | none => false
  | none => false

def recentCompletedEvents (events : List Event) (now : Int) : List Event :=
  events.filter (isRecentCompleted now)

/-- Date key used by the descending sort of `getCurrentGame`. -/
def eventDate (ev : Event) : Int :=
  match ev.competitions.head? with
  | some comp => comp.date.getD 0
  | none => 0

/-- The source stably sorts the recent games by date descending and takes
element 0; equivalently, the first event holding the maximal date. -/
def pickMostRecent (l : List Event) : Option Event :=
  l.foldl
    (fun acc ev =>
      match acc with
      | none => some ev
      | some best => if eventDate ev > eventDate best then some ev else some best)
    none

/-- Builds the returned `game` object from the chosen event.  `none` models
the `TypeError` thrown (and routed to the enclosing catch) when
`competitions[0]` or a home/away competitor is missing. -/
def mkGame (ev : Event) : Option Game := do
  let comp ← ev.competitions.head?
  let home ← comp.competitors.find? (fun t => t.homeAway == "home")
  let away ← comp.competitors.find? (fun t => t.homeAway == "away")
  pure
    { name := ev.name
      date := comp.date
      status := comp.status.type.description
      period := comp.status.period
      clock := comp.status.displayClock
      isLive := comp.status.type.state == "in"
      isCompleted := comp.status.type.completed
      homeTeam :=
        { name := home.team.displayName, abbreviation := home.team.abbreviation
          score := home.score, record := home.record }
      awayTeam :=
        { name := away.team.displayName, abbreviation := away.team.abbreviation
          score := away.score, record := away.record }
      venue := comp.venue
      broadcast := comp.broadcast }

/-- Source `getCurrentGame(teamName, sport)` (espn-api).  The function
contains no `getCached`/`setCache` call, so the module cache is threaded
through unchanged; the returned `Bool` is `true` iff the upstream fetch was
reached (always, once the team name resolves). -/
def getCurrentGame (teamName : String) (sport : String)
    (upstream : Except String SchedulePayload) (now : Int) (cache : ESPNCache) :
    GameResult × ESPNCache × Bool :=
  match getTeamId teamName with
  | none =>
    (.error ("Team \"" ++ teamName
        ++ "\" not found. Try: oklahoma, texas, alabama, ohio state, etc."),
      cache, false)
  | some _teamId =>
    match upstream with
    | .error e => (.error ("Failed to get game data: " ++ e), cache, true)
    | .ok data =>
      if data.events.isEmpty then
        (.error ("No games found for " ++ teamName), cache, true)
      else
        let currentGame :=
          match findLiveEvent data.events with
          | some ev => some ev
          | none => pickMostRecent (recentCompletedEvents data.events now)
        match currentGame with
        | none =>
          (.error ("No recent game found for " ++ teamName
              ++ " in the last 7 days. The team may be between games or the schedule data may not be updated yet."),
            cache, true)
        | some ev =>
          match mkGame ev with
          | none => (.error "Failed to get game data: TypeError", cache, true)
          | some g => (.ok g, cache, true)

/-! ## getTeamSchedule (espn-api) -/

/-- Filter of `getTeamSchedule`: keeps events whose
`competitions?.[0]?.date` parses and is `>= now`. -/
def upcomingFilter (now : Int) (ev : Event) : Bool :=
  match ev.competitions.head? with
  | some comp =>
    match comp.date with
    | some d => decide (d ≥ now)
    | none => false
  | none => false

/-- Maps one upcoming event to the schedule entry; `none` models the
`TypeError` thrown when a home/away competitor is missing. -/
def mkSchedGame (teamId : String) (ev : Event) : Option SchedGame := do
  let comp ← ev.competitions.head?
  let home ← comp.competitors.find? (fun t => t.homeAway == "home")
  let away ← comp.competitors.find? (fun t => t.homeAway == "away")
  pure
    { date := comp.date
      opponent :=
        if home.team.id == teamId then away.team.displayName else home.team.displayName
      location := if home.team.id == teamId then "Home" else "Away"
      venue := comp.venue
      broadcast := comp.broadcast }

/-- Source `getTeamSchedule(teamName, sport, limit)` (espn-api). -/
def getTeamSchedule (teamName : String) (sport : String) (limit : Nat)
    (upstream : Except String SchedulePayload) (now : Int) (cache : ESPNCache) :
    ESPNResponse × ESPNCache × Bool :=
  match getTeamId teamName with
  | none => (.error ("Team \"" ++ teamName ++ "\" not found"), cache, false)
  | some teamId =>
    let cacheKey := "schedule_" ++ teamId ++ "_" ++ sport
    match getCached cache cacheKey CACHE_DURATION_SCHEDULE now with
    | (some v, c1) => (.value v, c1, false)
    | (none, c1) =>
      match upstream with
      | .error e => (.error ("Failed to get schedule: " ++ e), c1, true)
      | .ok data =>
        if data.events.isEmpty then
          (.error ("No schedule found for " ++ teamName), c1, true)
        else
          match ((data.events.filter (upcomingFilter now)).take limit).mapM
              (mkSchedGame teamId) with
          | none => (.error "Failed to get schedule: TypeError", c1, true)
          | some games =>
            let result := CacheValue.schedule { team := teamName, games := games }
            (.value result, setCache c1 cacheKey result now, true)

/-! ## getScoreboard (espn-api) -/

/-- JS `a || b` on an optional string: the empty string is falsy. -/
def jsStringOr (o : Option String) (dflt : String) : String :=
  match o with
  | some s => if s == "" then dflt else s
  | none => dflt

/-- Maps one scoreboard event to a game entry; `none` models the
`TypeError` thrown when `competitions[0]` or a home/away competitor is
missing. -/
def mkSBGame (ev : Event) : Option SBGame := do
  let comp ← ev.competitions.head?
  let home ← comp.competitors.find? (fun t => t.homeAway == "home")
  let away ← comp.competitors.find? (fun t => t.homeAway == "away")
  pure
    { name := ev.name
      status := comp.status.type.description
      isLive := comp.status.type.state == "in"
      period := comp.status.period
      clock := comp.status.displayClock
      homeTeam :=
        { name := home.team.displayName, abbreviation := home.team.abbreviation
          score := home.score, record := home.record }
      awayTeam :=
        { name := away.team.displayName, abbreviation := away.team.abbreviation
          score := away.score, record := away.record }
      broadcast := comp.broadcast }

/-- Source `getScoreboard(sport, date)` (espn-api).  `todayStr` stands for
the `new Date().toISOString()...` default used when `date` is falsy.  The
read and the write both use the fixed `CACHE_DURATION.SCOREBOARD` (5 min):
no field of the fetched list influences the cache lifetime. -/
def getScoreboard (sport : String) (date : Option String) (todayStr : String)
    (upstream : Except String SchedulePayload) (now : Int) (cache : ESPNCache) :
    ESPNResponse × ESPNCache × Bool :=
  let dateStr := jsStringOr date todayStr
  let cacheKey := "scoreboard_" ++ sport ++ "_" ++ dateStr
  match getCached cache cacheKey CACHE_DURATION_SCOREBOARD now with
  | (some v, c1) => (.value v, c1, false)
  | (none, c1) =>
    match upstream with
    | .error e => (.error ("Failed to get scoreboard: " ++ e), c1, true)
    | .ok data =>
      if data.events.isEmpty then
        (.error ("No games found for " ++ dateStr), c1, true)
      else
        match data.events.mapM mkSBGame with
        | none => (.error "Failed to get scoreboard: TypeError", c1, true)
        | some games =>
          let result := CacheValue.scoreboard { date := dateStr, games := games }
          (.value result, setCache c1 cacheKey result now, true)

/-! ## getRankings (espn-api) -/

/-- JS `String.prototype.includes`: substring containment. -/
def jsIncludes (s sub : String) : Bool :=
  decide (sub.toList <:+: s.toList)

/-- Source `getRankings(sport, poll)` (espn-api).  A missing `rankings`
field and an empty list are collapsed to `[]` (the source treats both as
the no-rankings error). -/
def getRankings (sport : String) (poll : String)
    (upstream : Except String RankingsPayload) (now : Int) (cache : ESPNCache) :
    ESPNResponse × ESPNCache × Bool :=
  let cacheKey := "rankings_" ++ sport ++ "_" ++ poll
  match getCached cache cacheKey CACHE_DURATION_RANKINGS now with
  | (some v, c1) => (.value v, c1, false)
  | (none, c1) =>
    match upstream with
    | .error e => (.error ("Failed to get rankings: " ++ e), c1, true)
    | .ok data =>
      match data.rankings with
      | [] => (.error "No rankings available", c1, true)
      | r0 :: rest =>
        let ranking :=
          if poll != "ap" then
            match (r0 :: rest).find? (fun r =>
                jsIncludes (jsToLowerCase r.name) (jsToLowerCase poll)) with
            | some found => found
            | none => r0
          else r0
        let teams := ranking.ranks.map (fun rank =>
          ({ rank := rank.current, previousRank := rank.previous
             team := rank.team.displayName, abbreviation := rank.team.abbreviation
             record := rank.recordSummary, points := rank.points } : RankTeam))
        let result := CacheValue.rankings
          { poll := ranking.name, week := ranking.week, season := ranking.season
            teams := teams }
        (.value result, setCache c1 cacheKey result now, true)

/-! ## Clear-all (server.js `POST /clear-cache`) -/

/-- The three provider cache stores the server holds (ESPN, CFBD, NCAA).
The ESPN store is the espn-api `cache` modelled above; the CFBD and NCAA
stores are kept abstract in their value types. -/
structure AllCaches (β γ : Type) where
  espn : ESPNCache
  cfbd : CacheMap β
  ncaa : CacheMap γ

/-- Modelled from the spec: the CFBD and NCAA provider modules (and their
`clearCache` exports imported by server.js) are not under src/; the spec
says the clear-all operation "calls clear() on every provider's Cache
Store".  The ESPN clear is the source `clearCache` (`cache.clear()`); the
other two are modelled as the same whole-store clear. -/
def clearAllCaches {β γ : Type} (s : AllCaches β γ) : AllCaches β γ :=
  { espn := clearCache s.espn, cfbd := clearCache s.cfbd, ncaa := clearCache s.ncaa }

/-! ## handleGetScore (server.js) -/

/-- JS template interpolation of a possibly-undefined string:
a missing value renders as the text "undefined". -/
def jsTmpl (o : Option String) : String :=
  match o with
  | some s => s
  | none => "undefined"

/-- Source `handleGetScore(args)` (server.js): calls `getCurrentGame` and,
on `result.error`, returns `result.message` — a bare string, whatever the
failure was.  On success it renders the game as text.  The expression
`score?.displayValue || score?.value || score` reduces to the score string
itself here (the schedule payload's score is a string, so both property
reads are undefined). -/
def handleGetScore (team : String) (sport : String)
    (upstream : Except String SchedulePayload) (now : Int) (cache : ESPNCache) :
    String :=
  match (getCurrentGame team sport upstream now cache).1 with
  | .error m => m
  | .ok game =>
    let text := game.name ++ "\n" ++ game.status
    let text := text ++
      (if game.isLive then " - " ++ toString game.period ++ "Q " ++ game.clock ++ "\n"
       else "\n")
    let text := text ++ "\n" ++ game.awayTeam.name ++ " (" ++ jsTmpl game.awayTeam.record
      ++ "): " ++ jsTmpl game.awayTeam.score
    let text := text ++ "\n" ++ game.homeTeam.name ++ " (" ++ jsTmpl game.homeTeam.record
      ++ "): " ++ jsTmpl game.homeTeam.score
    let text := text ++
      (match game.venue with
       | some v => if v == "" then "" else "\n\nVenue: " ++ v
       | none => "")
    let text := text ++
      (match game.broadcast with
       | some b => if b == "" then "" else "\nTV: " ++ b
       | none => "")
    text

/-! ## CFBD traditional-stats aggregation (stats.js, step 4 inner loop)

The JSON stat values are numbers; a missing value is `undefined`.
`Number(stat.value)` is the number itself, or NaN when the value is
missing/non-numeric, and `NaN || 0` is `0` — so a missing value enters the
totals as 0.  The per-stat loop of `getTraditionalStats` (the
`for (const stat of player.stats)` body) is modelled here over one player's
stat list; `categories` is the nested `categories[category][statName]`
accumulator object. -/

structure CFBDStatLine where
  category : Option String
  stat : String
  value : Option Int
deriving DecidableEq, Repr

/-- JS `a || b` keeping the optional shape (empty string falsy). -/
def jsOrOpt (a b : Option String) : Option String :=
  match a with
  | some s => if s == "" then b else some s
  | none => b

/-- A JS object key: `undefined` stringifies to "undefined". -/
def jsPropKey (o : Option String) : String :=
  match o with
  | some s => s
  | none => "undefined"

/-- `Number(stat.value) || 0`. -/
def jsNumberOr0 (v : Option Int) : Int :=
  match v with
  | some n => n
  | none => 0

/-- `categories[category][statName] = (categories[category][statName] || init 0) + value`
on the inner stat-name object. -/
def bumpStat (m : List (String × Int)) (k : String) (v : Int) : List (String × Int) :=
  if m.any (fun p => p.1 == k) then
    m.map (fun p => if p.1 == k then (k, p.2 + v) else p)
  else
    m ++ [(k, v)]

/-- Upsert into the `categories` object. -/
def bumpCategory (cats : List (String × List (String × Int))) (cat : String)
    (statName : String) (v : Int) : List (String × List (String × Int)) :=
  if cats.any (fun p => p.1 == cat) then
    cats.map (fun p => if p.1 == cat then (cat, bumpStat p.2 statName v) else p)
  else
    cats ++ [(cat, bumpStat [] statName v)]

/-- The stats.js stat loop for one player:
`category = stat.category || player.statCategory`,
`value = Number(stat.value) || 0`, accumulate into
`categories[category][statName]`. -/
def aggregatePlayerStats (statCategory : Option String) (stats : List CFBDStatLine) :
    List (String × List (String × Int)) :=
  stats.foldl
    (fun cats stat =>
      let category := jsPropKey (jsOrOpt stat.category statCategory)
      let value := jsNumberOr0 stat.value
      bumpCategory cats category stat.stat value)
    []

/-! ## ESPN per-game player stats (espn-player.js, athlete row loop)

`statObject[label] = statsArray[idx] ?? null`: a label with no matching
stat entry gets the explicit `null` marker, kept here as `none`. -/

def buildStatObject (labels : List String) (statsArray : List String) :
    List (String × Option String) :=
  labels.enum.map (fun p => (p.2, statsArray.get? p.1))

/-! # Claims -/

/-- C4: TTL honoring.  For every entry stored at time `t0` with `setCache`,
a `getCached` read with max age `m` at time `t0 + d` returns the stored
value exactly when `d ≤ m` and returns absent exactly when `d` strictly
exceeds `m`; with `m` = 60 s this gives the value at `t0`+59 s and absent at
`t0`+61 s. -/
theorem ttl_honoring {α : Type} (c : CacheMap α) (key : String) (v : α) (t0 d m : Int) :
    (getCached (setCache c key v t0) key m (t0 + d)).1
      = if d ≤ m then some v else none := by
  unfold getCached setCache
  rw [mapGet_mapSet_self]
  simp only
  have hsub : t0 + d - t0 = d := by ring
  rw [hsub]
  by_cases h : d > m
  · rw [if_pos h, if_neg (by omega)]
  · rw [if_neg h, if_pos (by omega)]

/-- C5 (counterexample): a read of an expired entry does mutate the store.
With an entry stored at time 0 and read at time 100000 with max age 60000,
the map returned by `getCached` is empty — the entry has been evicted by
the read (`cache.delete`), contradicting the claim that a read performs no
observable mutation. -/
theorem expired_read_evicts_cx :
    (getCached (setCache ([] : CacheMap Nat) "k" 7 0) "k" 60000 100000).2 = []
    ∧ setCache ([] : CacheMap Nat) "k" 7 0 ≠ []
    ∧ (getCached (setCache ([] : CacheMap Nat) "k" 7 0) "k" 60000 100000).2
      ≠ setCache ([] : CacheMap Nat) "k" 7 0 := by
  decide

/-- C5 (amended): a read never adds or alters entries; a miss and a fresh
hit leave the store unchanged, while a read of an expired entry evicts
exactly that entry (`cache.delete(key)`).  The map is otherwise mutated
only by `setCache` and `clearCache`. -/
theorem getCached_mutation_characterization {α : Type} (c : CacheMap α) (key : String)
    (m now : Int) :
    (mapGet c key = none → (getCached c key m now).2 = c)
    ∧ (∀ e : CacheEntry α, mapGet c key = some e → now - e.timestamp ≤ m →
        (getCached c key m now).2 = c)
    ∧ (∀ e : CacheEntry α, mapGet c key = some e → now - e.timestamp > m →
        (getCached c key m now).2 = mapDelete c key) := by
  refine ⟨fun h => ?_, fun e he hfresh => ?_, fun e he hexp => ?_⟩
  · unfold getCached
    rw [h]
  · unfold getCached
    rw [he]
    simp only
    rw [if_neg (by omega)]
  · unfold getCached
    rw [he]
    simp only
    rw [if_pos hexp]

/-- C5 (witness for the amended theorem): the expired-read clause applied at
a concrete store. -/
theorem getCached_mutation_characterization_witness :
    (getCached (setCache ([] : CacheMap Nat) "k" 7 0) "k" 60000 100000).2
      = mapDelete (setCache ([] : CacheMap Nat) "k" 7 0) "k" :=
  (getCached_mutation_characterization (setCache ([] : CacheMap Nat) "k" 7 0)
    "k" 60000 100000).2.2 { data := 7, timestamp := 0 } (by decide) (by decide)

/-- Concrete rankings payload used by the C6 counterexample: a single
AP poll with one ranked team. -/
def apPollPayload : RankingsPayload :=
  { rankings := [
      { name := "AP Top 25", week := some 7, season := some 2025
        ranks := [
          { current := 1, previous := some 1
            team := { displayName := "Ohio State Buckeyes", abbreviation := "OSU" }
            recordSummary := some "6-0", points := some 1550 }] }] }

/-- C6 (counterexample): the cache key is NOT insensitive to the case of
every parameter.  After `getRankings("football","ap")` stores its result,
the entry sits under the key `rankings_football_ap`; a call 10 seconds
later with poll "AP" (well within the 24 h TTL) misses the cache and
consults the upstream again, because the poll string is embedded verbatim
in the key. -/
theorem fingerprint_case_cx :
    (mapGet (getRankings "football" "ap" (.ok apPollPayload) 0 []).2.1
        "rankings_football_ap").isSome = true
    ∧ mapGet (getRankings "football" "ap" (.ok apPollPayload) 0 []).2.1
        "rankings_football_AP" = none
    ∧ (getRankings "football" "AP" (.ok apPollPayload) 10000
        (getRankings "football" "ap" (.ok apPollPayload) 0 []).2.1).2.2 = true := by
  decide

/-- C6 (amended): only the team parameter is normalized before entering the
cache key: `getTeamId` lower-cases and trims the name, so two team names
equal up to case and surrounding whitespace resolve to the same ESPN id
and hence the same `schedule_` key; sport, poll and date are embedded in
their keys verbatim. -/
theorem fingerprint_team_case_insensitive (t1 t2 : String)
    (h : jsTrim (jsToLowerCase t1) = jsTrim (jsToLowerCase t2)) :
    getTeamId t1 = getTeamId t2 := by
  unfold getTeamId
  rw [h]

/-- C6 (witness): "Oklahoma" and "oklahoma" resolve identically. -/
theorem fingerprint_team_case_insensitive_witness :
    getTeamId "Oklahoma" = getTeamId "oklahoma" :=
  fingerprint_team_case_insensitive "Oklahoma" "oklahoma" (by decide)

/-! Helper lemmas for C3: each cached query stores nothing on any failing
path, and a store missing the key always reaches the fetch. -/

theorem getTeamSchedule_error_no_store (team sport : String) (limit : Nat) (tid : String)
    (up : Except String SchedulePayload) (now : Int) (c : ESPNCache)
    (hTid : getTeamId team = some tid)
    (herr : (getTeamSchedule team sport limit up now c).1.isError = true) :
    mapGet (getTeamSchedule team sport limit up now c).2.1
      ("schedule_" ++ tid ++ "_" ++ sport) = none := by
  unfold getTeamSchedule at herr ⊢
  rw [hTid] at herr ⊢
  dsimp only at herr ⊢
  rcases hgc : getCached c ("schedule_" ++ tid ++ "_" ++ sport) CACHE_DURATION_SCHEDULE now
    with ⟨fst, c1⟩
  rw [hgc] at herr
  cases fst with
  | some v => simp [ESPNResponse.isError] at herr
  | none =>
    have hc1 : mapGet c1 ("schedule_" ++ tid ++ "_" ++ sport) = none := by
      have h0 := getCached_none_mapGet c ("schedule_" ++ tid ++ "_" ++ sport)
        CACHE_DURATION_SCHEDULE now (by rw [hgc])
      rw [hgc] at h0
      exact h0
    cases up with
    | error e => exact hc1
    | ok data =>
      dsimp only at herr ⊢
      by_cases hev : data.events.isEmpty = true
      · rw [if_pos hev]
        exact hc1
      · rw [if_neg hev] at herr ⊢
        cases hmm : List.mapM (mkSchedGame tid)
            (List.take limit (List.filter (upcomingFilter now) data.events)) with
        | none => exact hc1
        | some games =>
          rw [hmm] at herr
          simp [ESPNResponse.isError] at herr

theorem getTeamSchedule_fetches_on_missing (team sport : String) (limit : Nat) (tid : String)
    (up : Except String SchedulePayload) (now : Int) (c : ESPNCache)
    (hTid : getTeamId team = some tid)
    (hmiss : mapGet c ("schedule_" ++ tid ++ "_" ++ sport) = none) :
    (getTeamSchedule team sport limit up now c).2.2 = true := by
  unfold getTeamSchedule
  rw [hTid]
  dsimp only
  rw [getCached_of_mapGet_none c _ CACHE_DURATION_SCHEDULE now hmiss]
  dsimp only
  cases up with
  | error e => rfl
  | ok data =>
    dsimp only
    by_cases hev : data.events.isEmpty = true
    · rw [if_pos hev]
    · rw [if_neg hev]
      cases List.mapM (mkSchedGame tid)
          (List.take limit (List.filter (upcomingFilter now) data.events)) with
      | none => rfl
      | some games => rfl

theorem getScoreboard_error_no_store (sport : String) (date : Option String)
    (todayStr : String) (up : Except String SchedulePayload) (now : Int) (c : ESPNCache)
    (herr : (getScoreboard sport date todayStr up now c).1.isError = true) :
    mapGet (getScoreboard sport date todayStr up now c).2.1
      ("scoreboard_" ++ sport ++ "_" ++ jsStringOr date todayStr) = none := by
  unfold getScoreboard at herr ⊢
  dsimp only at herr ⊢
  rcases hgc : getCached c ("scoreboard_" ++ sport ++ "_" ++ jsStringOr date todayStr)
    CACHE_DURATION_SCOREBOARD now with ⟨fst, c1⟩
  rw [hgc] at herr
  cases fst with
  | some v => simp [ESPNResponse.isError] at herr
  | none =>
    have hc1 : mapGet c1 ("scoreboard_" ++ sport ++ "_" ++ jsStringOr date todayStr) = none := by
      have h0 := getCached_none_mapGet c
        ("scoreboard_" ++ sport ++ "_" ++ jsStringOr date todayStr)
        CACHE_DURATION_SCOREBOARD now (by rw [hgc])
      rw [hgc] at h0
      exact h0
    cases up with
    | error e => exact hc1
    | ok data =>
      dsimp only at herr ⊢
      by_cases hev : data.events.isEmpty = true
      · rw [if_pos hev]
        exact hc1
      · rw [if_neg hev] at herr ⊢
        cases hmm : List.mapM mkSBGame data.events with
        | none => exact hc1
        | some games =>
          rw [hmm] at herr
          simp [ESPNResponse.isError] at herr

theorem getScoreboard_fetches_on_missing (sport : String) (date : Option String)
    (todayStr : String) (up : Except String SchedulePayload) (now : Int) (c : ESPNCache)
    (hmiss : mapGet c ("scoreboard_" ++ sport ++ "_" ++ jsStringOr date todayStr) = none) :
    (getScoreboard sport date todayStr up now c).2.2 = true := by
  unfold getScoreboard
  dsimp only
  rw [getCached_of_mapGet_none c _ CACHE_DURATION_SCOREBOARD now hmiss]
  dsimp only
  cases up with
  | error e => rfl
  | ok data =>
    dsimp only
    by_cases hev : data.events.isEmpty = true
    · rw [if_pos hev]
    · rw [if_neg hev]
      cases List.mapM mkSBGame data.events with
      | none => rfl
      | some games => rfl

theorem getRankings_error_no_store (sport poll : String)
    (up : Except String RankingsPayload) (now : Int) (c : ESPNCache)
    (herr : (getRankings sport poll up now c).1.isError = true) :
    mapGet (getRankings sport poll up now c).2.1
      ("rankings_" ++ sport ++ "_" ++ poll) = none := by
  unfold getRankings at herr ⊢
  dsimp only at herr ⊢
  rcases hgc : getCached c ("rankings_" ++ sport ++ "_" ++ poll)
    CACHE_DURATION_RANKINGS now with ⟨fst, c1⟩
  rw [hgc] at herr
  cases fst with
  | some v => simp [ESPNResponse.isError] at herr
  | none =>
    have hc1 : mapGet c1 ("rankings_" ++ sport ++ "_" ++ poll) = none := by
      have h0 := getCached_none_mapGet c ("rankings_" ++ sport ++ "_" ++ poll)
        CACHE_DURATION_RANKINGS now (by rw [hgc])
      rw [hgc] at h0
      exact h0
    cases up with
    | error e => exact hc1
    | ok data =>
      dsimp only at herr ⊢
      cases hdr : data.rankings with
      | nil => exact hc1
      | cons r0 rest =>
        rw [hdr] at herr
        simp [ESPNResponse.isError] at herr

theorem getRankings_fetches_on_missing (sport poll : String)
    (up : Except String RankingsPayload) (now : Int) (c : ESPNCache)
    (hmiss : mapGet c ("rankings_" ++ sport ++ "_" ++ poll) = none) :
    (getRankings sport poll up now c).2.2 = true := by
  unfold getRankings
  dsimp only
  rw [getCached_of_mapGet_none c _ CACHE_DURATION_RANKINGS now hmiss]
  dsimp only
  cases up with
  | error e => rfl
  | ok data =>
    dsimp only
    cases data.rankings with
    | nil => rfl
    | cons r0 rest => rfl

/-- C3: no cache poisoning on failure.  For each cached query
(`getTeamSchedule`, `getScoreboard`, `getRankings`), whenever the call
returns an error result (fetch failure, malformed payload with missing
events/rankings, or a normalization failure), the store it hands back has
no entry under that query's cache key, and a subsequent call with the same
key parameters reaches the upstream fetch again. -/
theorem no_cache_poisoning_on_failure
    (team sport : String) (limit limit2 : Nat) (tid : String)
    (up up2 : Except String SchedulePayload) (now now2 : Int) (c : ESPNCache)
    (sbSport : String) (sbDate : Option String) (sbToday : String)
    (sbUp sbUp2 : Except String SchedulePayload) (sbNow sbNow2 : Int) (sbC : ESPNCache)
    (rkSport rkPoll : String) (rkUp rkUp2 : Except String RankingsPayload)
    (rkNow rkNow2 : Int) (rkC : ESPNCache)
    (hTid : getTeamId team = some tid)
    (hSchedErr : (getTeamSchedule team sport limit up now c).1.isError = true)
    (hSbErr : (getScoreboard sbSport sbDate sbToday sbUp sbNow sbC).1.isError = true)
    (hRkErr : (getRankings rkSport rkPoll rkUp rkNow rkC).1.isError = true) :
    (mapGet (getTeamSchedule team sport limit up now c).2.1
        ("schedule_" ++ tid ++ "_" ++ sport) = none
      ∧ (getTeamSchedule team sport limit2 up2 now2
          (getTeamSchedule team sport limit up now c).2.1).2.2 = true)
    ∧ (mapGet (getScoreboard sbSport sbDate sbToday sbUp sbNow sbC).2.1
        ("scoreboard_" ++ sbSport ++ "_" ++ jsStringOr sbDate sbToday) = none
      ∧ (getScoreboard sbSport sbDate sbToday sbUp2 sbNow2
          (getScoreboard sbSport sbDate sbToday sbUp sbNow sbC).2.1).2.2 = true)
    ∧ (mapGet (getRankings rkSport rkPoll rkUp rkNow rkC).2.1
        ("rankings_" ++ rkSport ++ "_" ++ rkPoll) = none
      ∧ (getRankings rkSport rkPoll rkUp2 rkNow2
          (getRankings rkSport rkPoll rkUp rkNow rkC).2.1).2.2 = true) := by
  have h1 := getTeamSchedule_error_no_store team sport limit tid up now c hTid hSchedErr
  have h2 := getScoreboard_error_no_store sbSport sbDate sbToday sbUp sbNow sbC hSbErr
  have h3 := getRankings_error_no_store rkSport rkPoll rkUp rkNow rkC hRkErr
  exact ⟨⟨h1, getTeamSchedule_fetches_on_missing team sport limit2 tid up2 now2 _ hTid h1⟩,
    ⟨h2, getScoreboard_fetches_on_missing sbSport sbDate sbToday sbUp2 sbNow2 _ h2⟩,
    ⟨h3, getRankings_fetches_on_missing rkSport rkPoll rkUp2 rkNow2 _ h3⟩⟩

/-- C3 (witness): a failed schedule fetch, an empty scoreboard payload and
an empty rankings payload each leave their key absent and let the next
call fetch. -/
theorem no_cache_poisoning_on_failure_witness :
    (mapGet (getTeamSchedule "oklahoma" "football" 5 (.error "boom") 0 []).2.1
        ("schedule_" ++ "201" ++ "_" ++ "football") = none
      ∧ (getTeamSchedule "oklahoma" "football" 5 (.error "boom") 1000
          (getTeamSchedule "oklahoma" "football" 5 (.error "boom") 0 []).2.1).2.2 = true)
    ∧ (mapGet (getScoreboard "football" (some "20251011") "20251011"
          (.ok { events := [] }) 0 []).2.1
        ("scoreboard_" ++ "football" ++ "_" ++ jsStringOr (some "20251011") "20251011") = none
      ∧ (getScoreboard "football" (some "20251011") "20251011" (.ok { events := [] }) 1000
          (getScoreboard "football" (some "20251011") "20251011"
            (.ok { events := [] }) 0 []).2.1).2.2 = true)
    ∧ (mapGet (getRankings "football" "ap" (.ok { rankings := [] }) 0 []).2.1
        ("rankings_" ++ "football" ++ "_" ++ "ap") = none
      ∧ (getRankings "football" "ap" (.ok { rankings := [] }) 1000
          (getRankings "football" "ap" (.ok { rankings := [] }) 0 []).2.1).2.2 = true) :=
  no_cache_poisoning_on_failure "oklahoma" "football" 5 5 "201"
    (.error "boom") (.error "boom") 0 1000 []
    "football" (some "20251011") "20251011" (.ok { events := [] }) (.ok { events := [] }) 0 1000 []
    "football" "ap" (.ok { rankings := [] }) (.ok { rankings := [] }) 0 1000 []
    (by decide) (by decide) (by decide) (by decide)

/-- C9: clear-all.  After the `/clear-cache` operation every previously
cached key is absent from every provider store, and the next query of each
kind on the cleared ESPN store misses the cache and reaches the upstream
fetch, regardless of how fresh the cleared entries were. -/
theorem clear_all_forces_refetch {β γ : Type} (s : AllCaches β γ) (k : String)
    (team sport : String) (tid : String) (limit : Nat)
    (up : Except String SchedulePayload) (now : Int)
    (sbSport : String) (sbDate : Option String) (sbToday : String)
    (sbUp : Except String SchedulePayload) (sbNow : Int)
    (rkSport rkPoll : String) (rkUp : Except String RankingsPayload) (rkNow : Int)
    (hTid : getTeamId team = some tid) :
    mapGet (clearAllCaches s).espn k = none
    ∧ mapGet (clearAllCaches s).cfbd k = none
    ∧ mapGet (clearAllCaches s).ncaa k = none
    ∧ (getTeamSchedule team sport limit up now (clearAllCaches s).espn).2.2 = true
    ∧ (getScoreboard sbSport sbDate sbToday sbUp sbNow (clearAllCaches s).espn).2.2 = true
    ∧ (getRankings rkSport rkPoll rkUp rkNow (clearAllCaches s).espn).2.2 = true := by
  refine ⟨rfl, rfl, rfl, ?_, ?_, ?_⟩
  · exact getTeamSchedule_fetches_on_missing team sport limit tid up now _ hTid rfl
  · exact getScoreboard_fetches_on_missing sbSport sbDate sbToday sbUp sbNow _ rfl
  · exact getRankings_fetches_on_missing rkSport rkPoll rkUp rkNow _ rfl

/-- C9 (witness): clear-all applied to concrete stores holding one fresh
entry each. -/
theorem clear_all_forces_refetch_witness :
    mapGet (clearAllCaches
        { espn := setCache [] "rankings_football_ap"
            (CacheValue.rankings { poll := "AP Top 25", week := some 7, season := some 2025, teams := [] }) 0
          cfbd := setCache ([] : CacheMap Nat) "cfbd_k" 1 0
          ncaa := setCache ([] : CacheMap Nat) "ncaa_k" 2 0 }).espn
      "rankings_football_ap" = none
    ∧ mapGet (clearAllCaches
        { espn := setCache [] "rankings_football_ap"
            (CacheValue.rankings { poll := "AP Top 25", week := some 7, season := some 2025, teams := [] }) 0
          cfbd := setCache ([] : CacheMap Nat) "cfbd_k" 1 0
          ncaa := setCache ([] : CacheMap Nat) "ncaa_k" 2 0 }).cfbd
      "rankings_football_ap" = none
    ∧ mapGet (clearAllCaches
        { espn := setCache [] "rankings_football_ap"
            (CacheValue.rankings { poll := "AP Top 25", week := some 7, season := some 2025, teams := [] }) 0
          cfbd := setCache ([] : CacheMap Nat) "cfbd_k" 1 0
          ncaa := setCache ([] : CacheMap Nat) "ncaa_k" 2 0 }).ncaa
      "rankings_football_ap" = none
    ∧ (getTeamSchedule "oklahoma" "football" 5 (.error "boom") 10 (clearAllCaches
        { espn := setCache [] "rankings_football_ap"
            (CacheValue.rankings { poll := "AP Top 25", week := some 7, season := some 2025, teams := [] }) 0
          cfbd := setCache ([] : CacheMap Nat) "cfbd_k" 1 0
          ncaa := setCache ([] : CacheMap Nat) "ncaa_k" 2 0 }).espn).2.2 = true
    ∧ (getScoreboard "football" none "20251011" (.error "boom") 10 (clearAllCaches
        { espn := setCache [] "rankings_football_ap"
            (CacheValue.rankings { poll := "AP Top 25", week := some 7, season := some 2025, teams := [] }) 0
          cfbd := setCache ([] : CacheMap Nat) "cfbd_k" 1 0
          ncaa := setCache ([] : CacheMap Nat) "ncaa_k" 2 0 }).espn).2.2 = true
    ∧ (getRankings "football" "ap" (.ok apPollPayload) 10 (clearAllCaches
        { espn := setCache [] "rankings_football_ap"
            (CacheValue.rankings { poll := "AP Top 25", week := some 7, season := some 2025, teams := [] }) 0
          cfbd := setCache ([] : CacheMap Nat) "cfbd_k" 1 0
          ncaa := setCache ([] : CacheMap Nat) "ncaa_k" 2 0 }).espn).2.2 = true :=
  clear_all_forces_refetch
    { espn := setCache [] "rankings_football_ap"
        (CacheValue.rankings { poll := "AP Top 25", week := some 7, season := some 2025, teams := [] }) 0
      cfbd := setCache ([] : CacheMap Nat) "cfbd_k" 1 0
      ncaa := setCache ([] : CacheMap Nat) "ncaa_k" 2 0 }
    "rankings_football_ap" "oklahoma" "football" "201" 5 (.error "boom") 10
    "football" none "20251011" (.error "boom") 10
    "football" "ap" (.ok apPollPayload) 10 (by decide)

/-- The poll-selection rule as the claim states it: for poll "ap" the first
ranking in the list, otherwise the first ranking whose name contains the
poll string case-insensitively, falling back to the first ranking when none
matches.  Stated separately from `getRankings` so the source behaviour can
be proved equal to it. -/
def claimedRankingChoice (poll : String) (r0 : Ranking) (rest : List Ranking) : Ranking :=
  if poll = "ap" then r0
  else ((r0 :: rest).find? (fun r =>
    jsIncludes (jsToLowerCase r.name) (jsToLowerCase poll))).getD r0

/-- C10: on a cache miss with a payload holding at least one ranking list,
`getRankings` never fails over the poll argument: it returns the ranking
chosen by `claimedRankingChoice` — the first list for "ap" (no name
matching at all), else the first case-insensitive name match with fallback
to the first list — so the returned `poll` field may differ from the poll
requested. -/
theorem rankings_poll_selection (sport poll : String) (r0 : Ranking) (rest : List Ranking)
    (now : Int) (c : ESPNCache)
    (hmiss : (getCached c ("rankings_" ++ sport ++ "_" ++ poll)
        CACHE_DURATION_RANKINGS now).1 = none) :
    (getRankings sport poll (.ok { rankings := r0 :: rest }) now c).1
      = .value (CacheValue.rankings
          { poll := (claimedRankingChoice poll r0 rest).name
            week := (claimedRankingChoice poll r0 rest).week
            season := (claimedRankingChoice poll r0 rest).season
            teams := (claimedRankingChoice poll r0 rest).ranks.map (fun rank =>
              { rank := rank.current, previousRank := rank.previous
                team := rank.team.displayName, abbreviation := rank.team.abbreviation
                record := rank.recordSummary, points := rank.points }) }) := by
  unfold getRankings
  dsimp only
  rcases hgc : getCached c ("rankings_" ++ sport ++ "_" ++ poll)
    CACHE_DURATION_RANKINGS now with ⟨fst, c1⟩
  rw [hgc] at hmiss
  cases fst with
  | some v => simp at hmiss
  | none =>
    dsimp only
    unfold claimedRankingChoice
    by_cases hp : poll = "ap"
    · have hb : (poll != "ap") = false := by simp [hp]
      rw [hb, if_pos hp]
      rfl
    · have hb : (poll != "ap") = true := by simp [hp]
      rw [hb, if_neg hp]
      cases hf : List.find? (fun r =>
          jsIncludes (jsToLowerCase r.name) (jsToLowerCase poll)) (r0 :: rest) with
      | none => rfl
      | some found => rfl

/-- First ranking list of the C10 witness payload. -/
def apRankingList : Ranking :=
  { name := "AP Top 25", week := some 7, season := some 2025
    ranks := [
      { current := 1, previous := some 2
        team := { displayName := "Texas Longhorns", abbreviation := "TEX" }
        recordSummary := some "6-0", points := some 1500 }] }

/-- Second ranking list of the C10 witness payload. -/
def coachesRankingList : Ranking :=
  { name := "Coaches Poll", week := some 7, season := some 2025
    ranks := [
      { current := 1, previous := some 1
        team := { displayName := "Ohio State Buckeyes", abbreviation := "OSU" }
        recordSummary := some "6-0", points := some 1489 }] }

/-- C10 (witness): requesting poll "coaches" on an empty store returns the
"Coaches Poll" ranking (the case-insensitive name match), not an error. -/
theorem rankings_poll_selection_witness :
    (getRankings "football" "coaches"
        (.ok { rankings := apRankingList :: [coachesRankingList] }) 0 []).1
      = .value (CacheValue.rankings
          { poll := (claimedRankingChoice "coaches" apRankingList [coachesRankingList]).name
            week := (claimedRankingChoice "coaches" apRankingList [coachesRankingList]).week
            season := (claimedRankingChoice "coaches" apRankingList [coachesRankingList]).season
            teams := (claimedRankingChoice "coaches" apRankingList
              [coachesRankingList]).ranks.map (fun rank =>
              { rank := rank.current, previousRank := rank.previous
                team := rank.team.displayName, abbreviation := rank.team.abbreviation
                record := rank.recordSummary, points := rank.points }) }) :=
  rankings_poll_selection "football" "coaches" apRankingList [coachesRankingList] 0 []
    (by decide)

/-- Schedule payload for C1: Oklahoma's schedule whose first event is in
progress with home score 24 and away score 17. -/
def ouLiveSchedulePayload : SchedulePayload :=
  { events := [
      { name := "Oklahoma Sooners at Texas Longhorns"
        competitions := [
          { date := some 1000
            status := { type := { state := "in", completed := false
                                  description := "In Progress" }
                        period := 3, displayClock := "5:12" }
            competitors := [
              { homeAway := "home"
                team := { id := "251", displayName := "Texas Longhorns"
                          abbreviation := "TEX" }
                score := some "24", record := some "5-1" },
              { homeAway := "away"
                team := { id := "201", displayName := "Oklahoma Sooners"
                          abbreviation := "OU" }
                score := some "17", record := some "4-2" }]
            venue := some "Cotton Bowl", broadcast := some "ABC" }] }] }

/-- C1 (code behaviour at the failing input): `getCurrentGame` for
"oklahoma" with a live 24-17 game does return the live game with those
scores, but it never reads or writes the cache — the store it hands back is
still empty — and a second call 10 seconds later consults the upstream
again.  The source function contains no `getCached`/`setCache` call and
`CACHE_DURATION.LIVE_GAME` is never used. -/
theorem currentGame_never_cached :
    (getCurrentGame "oklahoma" "football" (.ok ouLiveSchedulePayload) 2000 []).1
      = .ok { name := "Oklahoma Sooners at Texas Longhorns"
              date := some 1000
              status := "In Progress"
              period := 3
              clock := "5:12"
              isLive := true
              isCompleted := false
              homeTeam := { name := "Texas Longhorns", abbreviation := "TEX"
                            score := some "24", record := some "5-1" }
              awayTeam := { name := "Oklahoma Sooners", abbreviation := "OU"
                            score := some "17", record := some "4-2" }
              venue := some "Cotton Bowl"
              broadcast := some "ABC" }
    ∧ (getCurrentGame "oklahoma" "football" (.ok ouLiveSchedulePayload) 2000 []).2.1 = []
    ∧ (getCurrentGame "oklahoma" "football" (.ok ouLiveSchedulePayload) 2000 []).2.2 = true
    ∧ (getCurrentGame "oklahoma" "football" (.ok ouLiveSchedulePayload) 12000
        (getCurrentGame "oklahoma" "football" (.ok ouLiveSchedulePayload) 2000 []).2.1).2.2
      = true := by
  decide

/-- Fixture builder: a completed (state "post") scoreboard event. -/
def finalEvent (nm hn an hs asc : String) : Event :=
  { name := nm
    competitions := [
      { date := some 500
        status := { type := { state := "post", completed := true
                              description := "Final" }
                    period := 4, displayClock := "0:00" }
        competitors := [
          { homeAway := "home"
            team := { id := "1", displayName := hn, abbreviation := "H" }
            score := some hs, record := none },
          { homeAway := "away"
            team := { id := "2", displayName := an, abbreviation := "A" }
            score := some asc, record := none }]
        venue := none, broadcast := none }] }

/-- Scoreboard payload for C2: one live game and four completed games. -/
def mixedScoreboardPayload : SchedulePayload :=
  { events := [
      { name := "Oklahoma Sooners at Texas Longhorns"
        competitions := [
          { date := some 1000
            status := { type := { state := "in", completed := false
                                  description := "In Progress" }
                        period := 2, displayClock := "8:30" }
            competitors := [
              { homeAway := "home"
                team := { id := "251", displayName := "Texas Longhorns"
                          abbreviation := "TEX" }
                score := some "14", record := none },
              { homeAway := "away"
                team := { id := "201", displayName := "Oklahoma Sooners"
                          abbreviation := "OU" }
                score := some "10", record := none }]
            venue := none, broadcast := some "ABC" }] },
      finalEvent "Game B" "B1" "B2" "21" "7",
      finalEvent "Game C" "C1" "C2" "35" "31",
      finalEvent "Game D" "D1" "D2" "17" "14",
      finalEvent "Game E" "E1" "E2" "28" "3"] }

/-- Projection used to state which stored games are live. -/
def scoreboardLiveFlags : ESPNResponse → Option (List Bool)
  | .value (.scoreboard r) => some (r.games.map (fun g => g.isLive))
  | _ => none

/-- C2 (code behaviour at the failing input): a scoreboard list with one
live and four completed games is cached under the flat 5-minute
`CACHE_DURATION.SCOREBOARD`.  At 90 s — past the 60 s the claim requires
when any game is live — the next call is still served from the cache
without consulting the upstream (it returns the stored list even though
the upstream would fail), and only after 300 s does a call fetch again.
No liveness scan influences the TTL on either the read or the write. -/
theorem scoreboard_flat_ttl :
    scoreboardLiveFlags (getScoreboard "football" (some "20251011") "20251011"
        (.ok mixedScoreboardPayload) 0 []).1
      = some [true, false, false, false, false]
    ∧ (getScoreboard "football" (some "20251011") "20251011" (.error "down") 90000
        (getScoreboard "football" (some "20251011") "20251011"
          (.ok mixedScoreboardPayload) 0 []).2.1).2.2 = false
    ∧ (getScoreboard "football" (some "20251011") "20251011" (.error "down") 90000
        (getScoreboard "football" (some "20251011") "20251011"
          (.ok mixedScoreboardPayload) 0 []).2.1).1
      = (getScoreboard "football" (some "20251011") "20251011"
          (.ok mixedScoreboardPayload) 0 []).1
    ∧ (getScoreboard "football" (some "20251011") "20251011" (.error "down") 301000
        (getScoreboard "football" (some "20251011") "20251011"
          (.ok mixedScoreboardPayload) 0 []).2.1).2.2 = true := by
  decide

/-- Schedule payload for C7: a single upcoming (state "pre") event, so no
live game and no completed game in the 7-day window — the valid-request,
no-matching-entity case. -/
def upcomingOnlyPayload : SchedulePayload :=
  { events := [
      { name := "Oklahoma Sooners at Texas Longhorns"
        competitions := [
          { date := some 999999999
            status := { type := { state := "pre", completed := false
                                  description := "Scheduled" }
                        period := 0, displayClock := "0:00" }
            competitors := [
              { homeAway := "home"
                team := { id := "251", displayName := "Texas Longhorns"
                          abbreviation := "TEX" }
                score := none, record := some "5-1" },
              { homeAway := "away"
                team := { id := "201", displayName := "Oklahoma Sooners"
                          abbreviation := "OU" }
                score := none, record := some "4-2" }]
            venue := some "Cotton Bowl", broadcast := none }] }] }

/-- C7 (counterexample): the not-found outcome and the upstream-failure
outcome are merged into the single `{ error: true, message }` shape.  Both
concrete results are errors, swapping one message for the other maps one
result onto the other exactly (no structured kind distinguishes them), and
`handleGetScore` forwards each as a bare message string. -/
theorem error_shape_merged_cx :
    (getCurrentGame "oklahoma" "football" (.error "network down") 0 []).1.isError = true
    ∧ (getCurrentGame "oklahoma" "football" (.ok upcomingOnlyPayload) 0 []).1.isError = true
    ∧ ((getCurrentGame "oklahoma" "football" (.error "network down") 0 []).1).withMessage
        "No recent game found for oklahoma in the last 7 days. The team may be between games or the schedule data may not be updated yet."
      = (getCurrentGame "oklahoma" "football" (.ok upcomingOnlyPayload) 0 []).1
    ∧ handleGetScore "oklahoma" "football" (.error "network down") 0 []
      = "Failed to get game data: network down"
    ∧ handleGetScore "oklahoma" "football" (.ok upcomingOnlyPayload) 0 []
      = "No recent game found for oklahoma in the last 7 days. The team may be between games or the schedule data may not be updated yet." := by
  decide

/-- C7 (amended): an upstream failure and a not-found outcome both surface
as the one error shape, distinguishable only by message text: the fetch
failure always carries "Failed to get game data: ..." and the empty
lookback window always carries "No recent game found ...", and
`handleGetScore` returns exactly those strings to the caller. -/
theorem error_kinds_only_in_message (team sport tid e : String)
    (p : SchedulePayload) (now : Int) (c : ESPNCache)
    (hTid : getTeamId team = some tid)
    (hne : p.events ≠ [])
    (hnl : findLiveEvent p.events = none)
    (hnr : recentCompletedEvents p.events now = []) :
    (getCurrentGame team sport (.error e) now c).1
      = .error ("Failed to get game data: " ++ e)
    ∧ (getCurrentGame team sport (.ok p) now c).1
      = .error ("No recent game found for " ++ team
          ++ " in the last 7 days. The team may be between games or the schedule data may not be updated yet.")
    ∧ handleGetScore team sport (.error e) now c = "Failed to get game data: " ++ e
    ∧ handleGetScore team sport (.ok p) now c
      = "No recent game found for " ++ team
          ++ " in the last 7 days. The team may be between games or the schedule data may not be updated yet." := by
  have h1 : (getCurrentGame team sport (.error e) now c).1
      = .error ("Failed to get game data: " ++ e) := by
    unfold getCurrentGame
    rw [hTid]
  have h2 : (getCurrentGame team sport (.ok p) now c).1
      = .error ("No recent game found for " ++ team
          ++ " in the last 7 days. The team may be between games or the schedule data may not be updated yet.") := by
    unfold getCurrentGame
    rw [hTid]
    dsimp only
    have hev : ¬ (p.events.isEmpty = true) := by
      rw [List.isEmpty_iff]
      exact hne
    rw [if_neg hev, hnl]
    dsimp only
    rw [hnr]
    rfl
  refine ⟨h1, h2, ?_, ?_⟩
  · unfold handleGetScore
    rw [h1]
  · unfold handleGetScore
    rw [h2]

/-- C7 (witness for the amended theorem): the two error texts at a concrete
team and payload. -/
theorem error_kinds_only_in_message_witness :
    (getCurrentGame "oklahoma" "football" (.error "ESPN API error: 503 Service Unavailable") 0 []).1
      = .error ("Failed to get game data: " ++ "ESPN API error: 503 Service Unavailable")
    ∧ (getCurrentGame "oklahoma" "football" (.ok upcomingOnlyPayload) 0 []).1
      = .error ("No recent game found for " ++ "oklahoma"
          ++ " in the last 7 days. The team may be between games or the schedule data may not be updated yet.")
    ∧ handleGetScore "oklahoma" "football" (.error "ESPN API error: 503 Service Unavailable") 0 []
      = "Failed to get game data: " ++ "ESPN API error: 503 Service Unavailable"
    ∧ handleGetScore "oklahoma" "football" (.ok upcomingOnlyPayload) 0 []
      = "No recent game found for " ++ "oklahoma"
          ++ " in the last 7 days. The team may be between games or the schedule data may not be updated yet." :=
  error_kinds_only_in_message "oklahoma" "football" "201"
    "ESPN API error: 503 Service Unavailable" upcomingOnlyPayload 0 []
    (by decide) (by decide) (by decide) (by decide)

/-- C8 (counterexample): the stats.js aggregation coerces a missing stat
value to 0 (`Number(stat.value) || 0`), so a passing-yards entry with no
value is reported as total 0 — indistinguishable from a genuine total of
0. -/
theorem missing_stat_reported_as_zero_cx :
    aggregatePlayerStats (some "passing")
        [{ category := some "passing", stat := "YDS", value := none }]
      = [("passing", [("YDS", 0)])]
    ∧ aggregatePlayerStats (some "passing")
        [{ category := some "passing", stat := "YDS", value := none }]
      = aggregatePlayerStats (some "passing")
        [{ category := some "passing", stat := "YDS", value := some 0 }] := by
  decide

/-- C8 (amended): the espn-player normalizer does keep an explicit absent
marker — a label beyond the end of the stats array maps to `null`
(`statsArray[idx] ?? null`), never to a default value — but the CFBD
traditional-stats aggregation replaces a missing stat value by 0. -/
theorem stat_absent_markers (labels arr : List String) (i : Nat)
    (h : i < labels.length) (hmiss : arr.length ≤ i)
    (cat statCategory : Option String) (statName : String) :
    (buildStatObject labels arr).get ⟨i, by simpa [buildStatObject] using h⟩
      = (labels.get ⟨i, h⟩, none)
    ∧ aggregatePlayerStats statCategory
        [{ category := cat, stat := statName, value := none }]
      = [(jsPropKey (jsOrOpt cat statCategory), [(statName, 0)])] := by
  constructor
  · simp only [buildStatObject, List.get_eq_getElem, List.getElem_map, List.getElem_enum]
    rw [List.get?_eq_none.mpr hmiss]
  · rfl

/-- C8 (witness for the amended theorem): two labels, one stat entry — the
second label gets the explicit absent marker — and one category-level
missing value aggregating to 0. -/
theorem stat_absent_markers_witness :
    (buildStatObject ["C/ATT", "YDS"] ["10-18"]).get ⟨1, by decide⟩
      = (["C/ATT", "YDS"].get ⟨1, by decide⟩, none)
    ∧ aggregatePlayerStats (some "passing")
        [{ category := none, stat := "YDS", value := none }]
      = [(jsPropKey (jsOrOpt none (some "passing")), [("YDS", 0)])] :=
  stat_absent_markers ["C/ATT", "YDS"] ["10-18"] 1 (by decide) (by decide)
    none (some "passing") "YDS"
